import Mathlib

/-!
Shallow embedding of the Bad Deed Validator (src/validator.py).

Python floats are modelled as rationals, datetimes as year/month/day triples
(the program only ever constructs midnight datetimes from date tokens), raised
exceptions as Except values, and the regular expressions of the source as a
small backtracking matcher over a token list that mirrors the concrete
patterns appearing in the source (literals, greedy character-class star, plus
and fixed repetition, a two-literal alternation, one optional fraction group,
and capture-group markers).  Recursive functions are written with an explicit
fuel argument chosen large enough that exhaustion is unreachable, so that
every definition evaluates by kernel reduction.
-/

attribute [local semireducible] Rat.add Rat.sub Rat.mul Rat.inv

deriving instance DecidableEq for Except

set_option maxRecDepth 100000

namespace BadDeed

/-! ### Python character classes and small string helpers -/

def isPySpace (c : Char) : Bool :=
  c == ' ' || c == '\t' || c == '\n' || c == '\r' || c == '\x0B' || c == '\x0C'

def notS (c : Char) : Bool := !(isPySpace c)

def isWordC (c : Char) : Bool := c.isAlphanum || c == '_'

def isAmtC (c : Char) : Bool := c.isDigit || c == ',' || c == '.'

def notColon (c : Char) : Bool := !(c == ':')

def notPipeNl (c : Char) : Bool := !(c == '|') && !(c == '\n')

def notNl (c : Char) : Bool := !(c == '\n')

def notRPar (c : Char) : Bool := !(c == ')')

def notDigit (c : Char) : Bool := !(c.isDigit)

/-- Python str.strip(): remove leading and trailing whitespace. -/
def pyStrip (s : String) : String :=
  String.mk (((s.toList.dropWhile isPySpace).reverse.dropWhile isPySpace).reverse)

/-- Python str.upper() of a string, as its character list. -/
def upperChars (s : String) : List Char :=
  s.toList.map Char.toUpper

/-- Python int() on a string of decimal digits. -/
def natOfDigits (cs : List Char) : Nat :=
  cs.foldl (fun acc c => 10 * acc + (c.toNat - 48)) 0

/-- Python float() restricted to strings over digits and dots, which is all
that can reach it in this program: valid iff there is at least one digit and
at most one dot. -/
def pyFloatDD (cs : List Char) : Option ℚ :=
  let intPart := cs.takeWhile (fun c => !(c == '.'))
  let rest := cs.dropWhile (fun c => !(c == '.'))
  match rest with
  | [] => if intPart = [] then none else some (natOfDigits intPart)
  | _ :: frac =>
    if frac.any (fun c => c == '.') then none
    else if intPart = [] && frac = [] then none
    else some ((natOfDigits intPart : ℚ) + (natOfDigits frac : ℚ) / (10 ^ frac.length))

/-- pat is a prefix of s, optionally case-insensitively (Python re.IGNORECASE). -/
def litMatch (ci : Bool) : List Char → List Char → Bool
  | [], _ => true
  | _ :: _, [] => false
  | a :: l2, b :: s2 =>
    (if ci then a.toLower == b.toLower else a == b) && litMatch ci l2 s2

/-- Python `pat in s` substring test. -/
def isSubstr (pat : List Char) : List Char → Bool
  | [] => litMatch false pat []
  | c :: s2 => litMatch false pat (c :: s2) || isSubstr pat s2

/-! ### A token-level regex matcher covering exactly the patterns of the source -/

/-- Tokens for the concrete regexes of validator.py: case-optional literals,
greedy character-class star / plus / exact repetition, the two-literal
alternation (Million|Thousand), the optional decimal fraction (?:\.\d+)?, and
capture-group markers.  Non-nested single capture groups only, as in the
source patterns. -/
inductive RTok where
  | lit : Bool → List Char → RTok
  | cstar : (Char → Bool) → RTok
  | cplus : (Char → Bool) → RTok
  | crep : Nat → (Char → Bool) → RTok
  | alt2lit : List Char → List Char → RTok
  | optDotDigits : RTok
  | gopen : RTok
  | gclose : RTok

/-- Matcher state: the capture group currently being recorded (if any) and the
completed captures in order. -/
structure MSt where
  acc : Option (List Char)
  caps : List (List Char)

def MSt.eat (st : MSt) (cs : List Char) : MSt :=
  { st with acc := st.acc.map (fun a => a ++ cs) }

/-- Backtracking matcher for a token sequence at the start of s, with greedy
(prefer-consume, prefer-left-alternative) priority matching Python re.  Each
step consumes input or strictly shrinks the token weight, so the fuel used in
matchSeq below is never exhausted. -/
def matchSeqF : Nat → List RTok → List Char → MSt → Option (MSt × List Char)
  | 0, _, _, _ => none
  | fuel + 1, toks, s, st =>
    match toks with
    | [] => some (st, s)
    | RTok.lit ci l :: rest =>
      if litMatch ci l s then
        matchSeqF fuel rest (s.drop l.length) (st.eat (s.take l.length))
      else none
    | RTok.cstar p :: rest =>
      (match s with
       | c :: s2 =>
         if p c then matchSeqF fuel (RTok.cstar p :: rest) s2 (st.eat [c]) else none
       | [] => none) <|>
      matchSeqF fuel rest s st
    | RTok.cplus p :: rest =>
      match s with
      | c :: s2 =>
        if p c then matchSeqF fuel (RTok.cstar p :: rest) s2 (st.eat [c]) else none
      | [] => none
    | RTok.crep n p :: rest =>
      if n ≤ s.length && (s.take n).all p then
        matchSeqF fuel rest (s.drop n) (st.eat (s.take n))
      else none
    | RTok.alt2lit l1 l2 :: rest =>
      (if litMatch false l1 s then
         matchSeqF fuel rest (s.drop l1.length) (st.eat (s.take l1.length))
       else none) <|>
      (if litMatch false l2 s then
         matchSeqF fuel rest (s.drop l2.length) (st.eat (s.take l2.length))
       else none)
    | RTok.optDotDigits :: rest =>
      (match s with
       | c :: s2 =>
         if c == '.' then
           matchSeqF fuel (RTok.cplus Char.isDigit :: rest) s2 (st.eat [c])
         else none
       | [] => none) <|>
      matchSeqF fuel rest s st
    | RTok.gopen :: rest => matchSeqF fuel rest s { st with acc := some [] }
    | RTok.gclose :: rest =>
      match st.acc with
      | some a => matchSeqF fuel rest s { acc := none, caps := st.caps ++ [a] }
      | none => none

def matchSeq (toks : List RTok) (s : List Char) : Option (MSt × List Char) :=
  matchSeqF (s.length + 2 * toks.length + 2) toks s ⟨none, []⟩

/-- Python re.search: try the pattern at each start position from the left and
return the captures of the first (leftmost) match. -/
def reSearch (toks : List RTok) : List Char → Option (List (List Char))
  | [] =>
    match matchSeq toks [] with
    | some (st, _) => some st.caps
    | none => none
  | c :: s2 =>
    match matchSeq toks (c :: s2) with
    | some (st, _) => some st.caps
    | none => reSearch toks s2

def group1 (r : Option (List (List Char))) : Option (List Char) :=
  r.bind List.head?

/-! ### The concrete patterns of DeedParser -/

def rlit (ci : Bool) (s : String) : RTok := RTok.lit ci s.toList

/-- Label-anchored field pattern Label[^:]*:\s*(grp), compiled with IGNORECASE. -/
def labeledPat (label : String) (grp : RTok) : List RTok :=
  [rlit true label, RTok.cstar notColon, rlit true ":", RTok.cstar isPySpace,
   RTok.gopen, grp, RTok.gclose]

def docPat : List RTok := labeledPat "Doc" (RTok.cplus notS)

def countyPat : List RTok := labeledPat "County" (RTok.cplus notPipeNl)

def statePat : List RTok := labeledPat "State" (RTok.crep 2 isWordC)

def grantorPat : List RTok := labeledPat "Grantor" (RTok.cplus notNl)

def granteePat : List RTok := labeledPat "Grantee" (RTok.cplus notNl)

def apnPat : List RTok := labeledPat "APN" (RTok.cplus notS)

def statusPat : List RTok := labeledPat "Status" (RTok.cplus isWordC)

/-- Amount[^:]*:\s*\$([\d,.]+), case-sensitive (compiled without flags). -/
def amountPat : List RTok :=
  [rlit false "Amount", RTok.cstar notColon, rlit false ":", RTok.cstar isPySpace,
   rlit false "$", RTok.gopen, RTok.cplus isAmtC, RTok.gclose]

/-- \(([^)]*(?:Million|Thousand)[^)]*)\), case-sensitive. -/
def writtenPat : List RTok :=
  [rlit false "(", RTok.gopen, RTok.cstar notRPar,
   RTok.alt2lit "Million".toList "Thousand".toList,
   RTok.cstar notRPar, RTok.gclose, rlit false ")"]

/-- label[^\d]*(\d{4})-(\d{2})-(\d{2}), compiled with IGNORECASE. -/
def datePat (label : String) : List RTok :=
  [rlit true label, RTok.cstar notDigit,
   RTok.gopen, RTok.crep 4 Char.isDigit, RTok.gclose, rlit true "-",
   RTok.gopen, RTok.crep 2 Char.isDigit, RTok.gclose, rlit true "-",
   RTok.gopen, RTok.crep 2 Char.isDigit, RTok.gclose]

/-- (\d+(?:\.\d+)?)\s*unit, case-sensitive, for unit = Million / Thousand. -/
def writtenNumPat (unit : String) : List RTok :=
  [RTok.gopen, RTok.cplus Char.isDigit, RTok.optDotDigits, RTok.gclose,
   RTok.cstar isPySpace, rlit false unit]

/-! ### Dates -/

/-- A Python datetime as constructed by this program: a calendar date with all
time components zero. -/
structure PyDateTime where
  year : Nat
  month : Nat
  day : Nat
deriving DecidableEq

def leapYear (y : Nat) : Bool :=
  y % 4 == 0 && (!(y % 100 == 0) || y % 400 == 0)

def daysInMonth (y m : Nat) : Nat :=
  if m == 2 then (if leapYear y then 29 else 28)
  else if m == 4 || m == 6 || m == 9 || m == 11 then 30
  else 31

/-- The datetime(y, m, d) constructor succeeds iff this holds (else ValueError). -/
def validDate (y m d : Nat) : Bool :=
  1 ≤ y && y ≤ 9999 && 1 ≤ m && m ≤ 12 && 1 ≤ d && d ≤ daysInMonth y m

/-- Python datetime comparison a < b; times are all zero in this program, so it
is lexicographic on (year, month, day). -/
def dtlt (a b : PyDateTime) : Bool :=
  if a.year < b.year then true
  else if b.year < a.year then false
  else if a.month < b.month then true
  else if b.month < a.month then false
  else decide (a.day < b.day)

def padNat (w n : Nat) : String :=
  let s := toString n
  String.mk (List.replicate (w - s.length) '0') ++ s

/-- str(d.date()) / date.isoformat(): YYYY-MM-DD. -/
def isoDate (d : PyDateTime) : String :=
  padNat 4 d.year ++ "-" ++ padNat 2 d.month ++ "-" ++ padNat 2 d.day

/-- datetime.isoformat() on the midnight datetimes of this program. -/
def isoDateTime (d : PyDateTime) : String :=
  isoDate d ++ "T00:00:00"

/-! ### DeedData and DeedParser -/

structure DeedData where
  doc_id : Option String
  county_raw : Option String
  county_normalized : Option String
  state : Option String
  date_signed : Option PyDateTime
  date_recorded : Option PyDateTime
  grantor : Option String
  grantee : Option String
  amount_numeric : Option ℚ
  amount_written : Option String
  apn : Option String
  status : Option String
  tax_rate : Option ℚ
  errors : List String
  warnings : List String
deriving DecidableEq

/-- DeedData.__init__: everything unset, empty error and warning lists. -/
def emptyDeed : DeedData :=
  { doc_id := none, county_raw := none, county_normalized := none, state := none,
    date_signed := none, date_recorded := none, grantor := none, grantee := none,
    amount_numeric := none, amount_written := none, apn := none, status := none,
    tax_rate := none, errors := [], warnings := [] }

/-- DeedParser._extract_field: regex search, group(1), strip. -/
def extractField (text : String) (pat : List RTok) : Option String :=
  (group1 (reSearch pat text.toList)).map (fun g => pyStrip (String.mk g))

/-- DeedParser._parse_date: first regex match only; an invalid calendar date in
the matched groups (datetime ValueError) yields None. -/
def parseDate (text : String) (label : String) : Option PyDateTime :=
  match reSearch (datePat label) text.toList with
  | some (y :: m :: d :: _) =>
    if validDate (natOfDigits y) (natOfDigits m) (natOfDigits d) then
      some ⟨natOfDigits y, natOfDigits m, natOfDigits d⟩
    else none
  | _ => none

/-- Numeric amount extraction: group(1) with commas removed, through float();
a float() ValueError yields an unset field. -/
def extractAmountNumeric (text : String) : Option ℚ :=
  (group1 (reSearch amountPat text.toList)).bind
    (fun g => pyFloatDD (g.filter (fun c => !(c == ','))))

/-- Written amount extraction: first parenthesised expression containing
Million or Thousand, stripped. -/
def extractAmountWritten (text : String) : Option String :=
  (group1 (reSearch writtenPat text.toList)).map (fun g => pyStrip (String.mk g))

/-- DeedParser.parse: every field extracted independently, never failing. -/
def parse (text : String) : DeedData :=
  { emptyDeed with
    doc_id := extractField text docPat,
    county_raw := extractField text countyPat,
    state := extractField text statePat,
    date_signed := parseDate text "Date Signed",
    date_recorded := parseDate text "Date Recorded",
    grantor := extractField text grantorPat,
    grantee := extractField text granteePat,
    apn := extractField text apnPat,
    status := extractField text statusPat,
    amount_numeric := extractAmountNumeric text,
    amount_written := extractAmountWritten text }

/-! ### difflib.SequenceMatcher ratio -/

/-- Length of the common prefix run of two suffixes. -/
def runLen : List Char → List Char → Nat
  | a :: as2, b :: bs2 => if a == b then runLen as2 bs2 + 1 else 0
  | _, _ => 0

/-- All start-position pairs in row-major order (i ascending, then j). -/
def allStarts (a b : List Char) : List (Nat × Nat) :=
  (List.range a.length).flatMap (fun i => (List.range b.length).map (fun j => (i, j)))

/-- find_longest_match: the longest matching block, ties broken by earliest
start in a then in b (strict improvement over a row-major scan). -/
def pickBest (a b : List Char) : Nat × Nat × Nat :=
  (allStarts a b).foldl
    (fun acc ij =>
      let k := runLen (a.drop ij.1) (b.drop ij.2)
      if k > acc.2.2 then (ij.1, ij.2, k) else acc)
    (0, 0, 0)

/-- Total size of matching blocks: longest block plus recursion on the pieces
to its left and right, as in get_matching_blocks.  Each level strictly shrinks
the combined length, so the fuel below is never exhausted. -/
def matchTotalF : Nat → List Char → List Char → Nat
  | 0, _, _ => 0
  | fuel + 1, a, b =>
    let t := pickBest a b
    if t.2.2 = 0 then 0
    else
      t.2.2 + matchTotalF fuel (a.take t.1) (b.take t.2.1) +
        matchTotalF fuel (a.drop (t.1 + t.2.2)) (b.drop (t.2.1 + t.2.2))

def matchTotal (a b : List Char) : Nat :=
  matchTotalF (a.length + b.length) a b

/-- SequenceMatcher(None, a, b).ratio() = 2 M / (len a + len b), and 1.0 when
both are empty. -/
def seqRatio (a b : List Char) : ℚ :=
  if a.length + b.length = 0 then 1
  else 2 * (matchTotal a b : ℚ) / ((a.length : ℚ) + (b.length : ℚ))

/-! ### Exceptions and message formatting -/

def qFloor (q : ℚ) : ℤ := q.num.fdiv (q.den : ℤ)

/-- Round to nearest integer, ties to even (Python float formatting). -/
def roundHE (q : ℚ) : ℤ :=
  let f := qFloor q
  let r := q - (f : ℚ)
  if r < 1/2 then f
  else if (1 : ℚ)/2 < r then f + 1
  else if f % 2 = 0 then f else f + 1

/-- Insert a comma after every third character of a reversed digit string. -/
def gAux : List Char → List Char
  | a :: b :: c :: d :: rest => a :: b :: c :: ',' :: gAux (d :: rest)
  | l => l

/-- Python format spec ,.2f. -/
def fmtComma2 (q : ℚ) : String :=
  let cents := roundHE (q * 100)
  let n := cents.natAbs
  let sgn := if cents < 0 then "-" else ""
  sgn ++ String.mk (gAux (toString (n / 100)).toList.reverse).reverse ++ "." ++ padNat 2 (n % 100)

/-- Python format spec .0%. -/
def fmtPct0 (q : ℚ) : String :=
  toString (roundHE (q * 100)) ++ "%"

/-- The ValidationError hierarchy, with the data each exception carries; msg
renders str(e) as built at each raise site. -/
inductive VErr where
  | dateLogic : PyDateTime → PyDateTime → VErr
  | amountMismatch : ℚ → String → ℚ → VErr
  | countyLookup : String → VErr
deriving DecidableEq

def VErr.msg : VErr → String
  | VErr.dateLogic recorded signed =>
    "Date logic violation: Recorded " ++ isoDate recorded ++
      " is before Signed " ++ isoDate signed
  | VErr.amountMismatch n written delta =>
    "Amount mismatch: $" ++ fmtComma2 n ++ " vs " ++ written ++
      " (diff: $" ++ fmtComma2 delta ++ ")"
  | VErr.countyLookup m => m

/-! ### CountyMatcher -/

structure CountyInfo where
  name : String
  tax_rate : ℚ
deriving DecidableEq

/-- The initials string built in the abbreviation branch: first letter of each
whitespace-separated word, uppercased. -/
def splitWsF : Nat → List Char → List (List Char)
  | 0, _ => []
  | _ + 1, [] => []
  | fuel + 1, c :: cs =>
    if isPySpace c then splitWsF fuel cs
    else (c :: cs.takeWhile (fun x => !(isPySpace x))) ::
      splitWsF fuel (cs.dropWhile (fun x => !(isPySpace x)))

def pySplitWs (cs : List Char) : List (List Char) := splitWsF cs.length cs

def abbrevOf (name : String) : List Char :=
  ((pySplitWs name.toList).filterMap List.head?).map Char.toUpper

/-- county_raw.replace('.', '').replace(' ', ''). -/
def rawStripped (raw : List Char) : List Char :=
  raw.filter (fun c => !(c == '.') && !(c == ' '))

/-- One rule of the per-entry loop fires: exact or abbreviation. -/
def fires (raw : List Char) (e : CountyInfo) : Bool :=
  raw == upperChars e.name || rawStripped raw == abbrevOf e.name

/-- The loop body of match_county over the reference entries, carrying the
running (best_match, best_ratio) pair initialised to (None, 0). -/
def matchCountyGo (raw : List Char) :
    List CountyInfo → Option String × ℚ → Except VErr (String × ℚ)
  | [], best =>
    if best.2 < 3/5 then
      Except.error (VErr.countyLookup ("No match for " ++ String.mk raw))
    else Except.ok (best.1.getD "", best.2)
  | e :: rest, best =>
    if raw == upperChars e.name then Except.ok (e.name, 1)
    else if rawStripped raw == abbrevOf e.name then Except.ok (e.name, 19/20)
    else
      matchCountyGo raw rest
        (if seqRatio raw (upperChars e.name) > best.2 then
           (some e.name, seqRatio raw (upperChars e.name))
         else best)

/-- The normalisation applied to the raw input before the loop:
county_raw.strip().upper(). -/
def normRaw (county_raw : String) : List Char :=
  upperChars (pyStrip county_raw)

/-- CountyMatcher.match_county. -/
def matchCounty (db : List CountyInfo) (county_raw : String) :
    Except VErr (String × ℚ) :=
  if county_raw == "" then Except.error (VErr.countyLookup "County name is empty")
  else matchCountyGo (normRaw county_raw) db (none, 0)

/-- The running (best_match, best_ratio) pair of the fuzzy branch of the loop,
folded over the entries that fire no rule. -/
def bestFold (raw : List Char) (l : List CountyInfo) (best : Option String × ℚ) :
    Option String × ℚ :=
  l.foldl (fun acc e =>
    if seqRatio raw (upperChars e.name) > acc.2 then
      (some e.name, seqRatio raw (upperChars e.name))
    else acc) best

/-- CountyMatcher.get_tax_rate. -/
def getTaxRate (db : List CountyInfo) (county_name : String) : Except VErr ℚ :=
  match db.find? (fun e => upperChars e.name == upperChars county_name) with
  | some e => Except.ok e.tax_rate
  | none => Except.error (VErr.countyLookup ("County not found: " ++ county_name))

/-! ### DeedValidator -/

/-- DeedValidator._parse_written_amount. -/
def parseWrittenAmount (written : String) : Option ℚ :=
  let cs := written.toList
  let m : ℚ :=
    if isSubstr "Million".toList cs then
      match group1 (reSearch (writtenNumPat "Million") cs) with
      | some g => (pyFloatDD g).getD 0 * 1000000
      | none => 0
    else 0
  let t : ℚ :=
    if isSubstr "Thousand".toList cs then
      match group1 (reSearch (writtenNumPat "Thousand") cs) with
      | some g => (pyFloatDD g).getD 0 * 1000
      | none => 0
    else 0
  if m + t > 0 then some (m + t) else none

/-- DeedValidator._validate_date_logic: raises DateLogicError iff both dates
are present and recorded > signed. -/
def validateDateLogic (d : DeedData) : Except VErr Unit :=
  match d.date_signed, d.date_recorded with
  | some s, some r =>
    if dtlt s r then Except.error (VErr.dateLogic r s) else Except.ok ()
  | _, _ => Except.ok ()

/-- DeedValidator._validate_amount_reconciliation: skipped when either amount
is falsy (None, 0.0 or empty string); an unparsable written amount appends a
warning; otherwise a discrepancy above 0.01 raises AmountMismatchError. -/
def validateAmountRecon (d : DeedData) : Except VErr DeedData :=
  match d.amount_numeric, d.amount_written with
  | some n, some w =>
    if n = 0 || w = "" then Except.ok d
    else
      match parseWrittenAmount w with
      | none => Except.ok { d with warnings := d.warnings ++ ["Could not parse: " ++ w] }
      | some wn =>
        if |n - wn| > 1/100 then
          Except.error (VErr.amountMismatch n w |n - wn|)
        else Except.ok d
  | _, _ => Except.ok d

/-- DeedValidator._enrich_county: its own failure boundary catches
CountyLookupError and downgrades it to a warning; a successful match with
confidence below 0.9 appends a low-confidence warning. -/
def enrichCounty (db : List CountyInfo) (d : DeedData) : DeedData :=
  match d.county_raw with
  | none => d
  | some raw =>
    if raw = "" then d
    else
      match matchCounty db raw with
      | Except.error e => { d with warnings := d.warnings ++ [e.msg] }
      | Except.ok (normalized, confidence) =>
        let d1 := { d with county_normalized := some normalized }
        match getTaxRate db normalized with
        | Except.error e => { d1 with warnings := d1.warnings ++ [e.msg] }
        | Except.ok r =>
          let d2 := { d1 with tax_rate := some r }
          if confidence < 9/10 then
            { d2 with warnings := d2.warnings ++ ["Low confidence county match: " ++ fmtPct0 confidence] }
          else d2

/-- DeedValidator.validate: the three stages run inside a single try; the
first ValidationError is appended to the error list and ends the stage. -/
def validate (db : List CountyInfo) (d : DeedData) : DeedData :=
  match validateDateLogic d with
  | Except.error e => { d with errors := d.errors ++ [e.msg] }
  | Except.ok _ =>
    match validateAmountRecon d with
    | Except.error e => { d with errors := d.errors ++ [e.msg] }
    | Except.ok d1 => enrichCounty db d1

/-! ### Serialization and the orchestrator -/

inductive JVal where
  | jnull : JVal
  | jstr : String → JVal
  | jnum : ℚ → JVal
  | jlist : List String → JVal
deriving DecidableEq

def jOfStr : Option String → JVal
  | none => JVal.jnull
  | some s => JVal.jstr s

def jOfNum : Option ℚ → JVal
  | none => JVal.jnull
  | some q => JVal.jnum q

def jOfDate : Option PyDateTime → JVal
  | none => JVal.jnull
  | some dt => JVal.jstr (isoDateTime dt)

/-- DeedData.to_dict. -/
def toDict (d : DeedData) : List (String × JVal) :=
  [("doc_id", jOfStr d.doc_id),
   ("county_raw", jOfStr d.county_raw),
   ("county_normalized", jOfStr d.county_normalized),
   ("state", jOfStr d.state),
   ("date_signed", jOfDate d.date_signed),
   ("date_recorded", jOfDate d.date_recorded),
   ("grantor", jOfStr d.grantor),
   ("grantee", jOfStr d.grantee),
   ("amount_numeric", jOfNum d.amount_numeric),
   ("amount_written", jOfStr d.amount_written),
   ("apn", jOfStr d.apn),
   ("status", jOfStr d.status),
   ("tax_rate", jOfNum d.tax_rate),
   ("errors", JVal.jlist d.errors),
   ("warnings", JVal.jlist d.warnings)]

structure Report where
  status : String
  deed : List (String × JVal)
  errors : List String
  warnings : List String
  error_count : Nat
  warning_count : Nat
deriving DecidableEq

/-- The report built by BadDeedValidator.process_and_report from a validated deed. -/
def reportOfDeed (d : DeedData) : Report :=
  { status := if d.errors = [] then "APPROVED" else "REJECTED",
    deed := toDict d,
    errors := d.errors,
    warnings := d.warnings,
    error_count := d.errors.length,
    warning_count := d.warnings.length }

/-- BadDeedValidator.process_deed. -/
def processDeed (db : List CountyInfo) (raw_ocr_text : String) : DeedData :=
  validate db (parse raw_ocr_text)

/-- BadDeedValidator.process_and_report. -/
def processAndReport (db : List CountyInfo) (raw_ocr_text : String) : Report :=
  reportOfDeed (processDeed db raw_ocr_text)

/-! ### Helper lemmas about the county-matching loop -/

theorem bestFold_cons (raw : List Char) (e : CountyInfo) (rest : List CountyInfo)
    (best : Option String × ℚ) :
    bestFold raw (e :: rest) best =
      bestFold raw rest
        (if seqRatio raw (upperChars e.name) > best.2 then
          (some e.name, seqRatio raw (upperChars e.name))
        else best) := rfl

theorem bestFold_ge_init (raw : List Char) (l : List CountyInfo) :
    ∀ best : Option String × ℚ, best.2 ≤ (bestFold raw l best).2 := by
  induction l with
  | nil => intro best; exact le_refl _
  | cons e rest ih =>
    intro best
    rw [bestFold_cons]
    refine le_trans ?_ (ih _)
    split
    next h => exact le_of_lt h
    next h => exact le_refl _

theorem bestFold_ge_mem (raw : List Char) (l : List CountyInfo) :
    ∀ best : Option String × ℚ, ∀ e ∈ l,
      seqRatio raw (upperChars e.name) ≤ (bestFold raw l best).2 := by
  induction l with
  | nil => intro best e he; cases he
  | cons e0 rest ih =>
    intro best e he
    rw [bestFold_cons]
    rcases List.mem_cons.mp he with h | h
    · subst h
      refine le_trans ?_ (bestFold_ge_init raw rest _)
      split
      next hgt => exact le_refl _
      next hgt => exact le_of_not_lt hgt
    · exact ih _ e h

theorem bestFold_cases (raw : List Char) (l : List CountyInfo) :
    ∀ best : Option String × ℚ, bestFold raw l best = best ∨
      ∃ e ∈ l, bestFold raw l best = (some e.name, seqRatio raw (upperChars e.name)) := by
  induction l with
  | nil => intro best; exact Or.inl rfl
  | cons e0 rest ih =>
    intro best
    rw [bestFold_cons]
    split
    next h =>
      rcases ih (some e0.name, seqRatio raw (upperChars e0.name)) with h1 | ⟨e, he, h2⟩
      · exact Or.inr ⟨e0, List.mem_cons_self e0 rest, h1⟩
      · exact Or.inr ⟨e, List.mem_cons_of_mem _ he, h2⟩
    next h =>
      rcases ih best with h1 | ⟨e, he, h2⟩
      · exact Or.inl h1
      · exact Or.inr ⟨e, List.mem_cons_of_mem _ he, h2⟩

theorem matchCountyGo_noFire (raw : List Char) (l : List CountyInfo) :
    ∀ best : Option String × ℚ, (∀ e ∈ l, fires raw e = false) →
      matchCountyGo raw l best =
        (if (bestFold raw l best).2 < 3/5 then
          Except.error (VErr.countyLookup ("No match for " ++ String.mk raw))
        else Except.ok ((bestFold raw l best).1.getD "", (bestFold raw l best).2)) := by
  induction l with
  | nil => intro best h; rfl
  | cons e0 rest ih =>
    intro best h
    have h0 := h e0 (List.mem_cons_self e0 rest)
    rw [fires, Bool.or_eq_false_iff] at h0
    rw [bestFold_cons]
    simp only [matchCountyGo, h0.1, h0.2, Bool.false_eq_true, if_false]
    exact ih _ (fun e he => h e (List.mem_cons_of_mem _ he))

theorem matchCountyGo_fires (raw : List Char) (l : List CountyInfo) :
    ∀ best : Option String × ℚ, (∃ e ∈ l, fires raw e = true) →
      ∃ nm c, matchCountyGo raw l best = Except.ok (nm, c) := by
  induction l with
  | nil => rintro best ⟨e, he, _⟩; cases he
  | cons e0 rest ih =>
    rintro best ⟨e, he, hf⟩
    by_cases h1 : (raw == upperChars e0.name) = true
    · exact ⟨e0.name, 1, by simp only [matchCountyGo, h1, if_true]⟩
    · by_cases h2 : (rawStripped raw == abbrevOf e0.name) = true
      · refine ⟨e0.name, 19/20, ?_⟩
        simp only [matchCountyGo, h2, if_true]
        rw [if_neg]
        intro hc; exact h1 hc
      · have hrest : ∃ e ∈ rest, fires raw e = true := by
          rcases List.mem_cons.mp he with h | h
          · exfalso
            subst h
            rw [fires, Bool.or_eq_true] at hf
            rcases hf with hf | hf
            · exact h1 hf
            · exact h2 hf
          · exact ⟨e, h, hf⟩
        obtain ⟨nm, c, hc⟩ := ih _ hrest
        refine ⟨nm, c, ?_⟩
        rw [Bool.not_eq_true] at h1 h2
        simp only [matchCountyGo, h1, h2, Bool.false_eq_true, if_false]
        exact hc

theorem matchCountyGo_exact (raw : List Char) (e : CountyInfo) (post : List CountyInfo) :
    ∀ (pre : List CountyInfo) (best : Option String × ℚ),
      raw = upperChars e.name →
      (∀ e2 ∈ pre, fires raw e2 = false) →
      matchCountyGo raw (pre ++ e :: post) best = Except.ok (e.name, 1) := by
  intro pre
  induction pre with
  | nil =>
    intro best heq _
    simp only [List.nil_append, matchCountyGo, heq, beq_self_eq_true, if_true]
  | cons p rest ih =>
    intro best heq hf
    have h0 := hf p (List.mem_cons_self p rest)
    rw [fires, Bool.or_eq_false_iff] at h0
    simp only [List.cons_append, matchCountyGo, h0.1, h0.2, Bool.false_eq_true, if_false]
    exact ih _ heq (fun e2 he2 => hf e2 (List.mem_cons_of_mem _ he2))

/-! ### The claims -/

/-- Claim C1: for every Record with both dates present, the date-order check
raises a DateLogicError iff the recorded date is strictly later than the
signed date (and the error carries both dates); when it fires, the resulting
report has status REJECTED; with either date absent, or recorded on or before
signed, no DateLogicError is produced. -/
theorem C1_date_order_check :
    (∀ d : DeedData,
      (∃ e, validateDateLogic d = Except.error e) ↔
        ∃ s r, d.date_signed = some s ∧ d.date_recorded = some r ∧ dtlt s r = true) ∧
    (∀ (d : DeedData) (e : VErr), validateDateLogic d = Except.error e →
      ∃ s r, d.date_signed = some s ∧ d.date_recorded = some r ∧ e = VErr.dateLogic r s) ∧
    (∀ (db : List CountyInfo) (d : DeedData) (s r : PyDateTime),
      d.date_signed = some s → d.date_recorded = some r → dtlt s r = true →
      (reportOfDeed (validate db d)).status = "REJECTED") := by
  have hchar : ∀ (d : DeedData) (e : VErr), validateDateLogic d = Except.error e →
      ∃ s r, d.date_signed = some s ∧ d.date_recorded = some r ∧ dtlt s r = true ∧
        e = VErr.dateLogic r s := by
    intro d e he
    rcases hs : d.date_signed with _ | s <;> rcases hr : d.date_recorded with _ | r <;>
      simp only [validateDateLogic, hs, hr] at he
    · exact Except.noConfusion he
    · exact Except.noConfusion he
    · exact Except.noConfusion he
    · cases hlt : dtlt s r with
      | false =>
        rw [hlt, if_neg Bool.false_ne_true] at he
        exact Except.noConfusion he
      | true =>
        rw [hlt, if_pos rfl] at he
        refine ⟨s, r, rfl, rfl, hlt, ?_⟩
        injection he with h
        exact h.symm
  refine ⟨?_, ?_, ?_⟩
  · intro d
    constructor
    · rintro ⟨e, he⟩
      obtain ⟨s, r, hs, hr, hlt, _⟩ := hchar d e he
      exact ⟨s, r, hs, hr, hlt⟩
    · rintro ⟨s, r, hs, hr, hlt⟩
      exact ⟨VErr.dateLogic r s, by simp only [validateDateLogic, hs, hr, hlt, if_true]⟩
  · intro d e he
    obtain ⟨s, r, hs, hr, _, hes⟩ := hchar d e he
    exact ⟨s, r, hs, hr, hes⟩
  · intro db d s r hs hr hlt
    have hd : validateDateLogic d = Except.error (VErr.dateLogic r s) := by
      simp only [validateDateLogic, hs, hr, hlt, if_true]
    simp only [validate, hd, reportOfDeed]
    rw [if_neg]
    simp

theorem C1_date_order_check_witness :
    (reportOfDeed (validate [] { emptyDeed with
      date_signed := some ⟨2020, 1, 5⟩, date_recorded := some ⟨2020, 1, 10⟩ })).status =
      "REJECTED" :=
  C1_date_order_check.2.2 [] _ ⟨2020, 1, 5⟩ ⟨2020, 1, 10⟩ rfl rfl (by decide)

/-- Claim C2 (corrected): the first failing check among date-order and
amount-reconciliation appends exactly one error message and short-circuits
everything after it in the validation stage, including jurisdiction
enrichment; only when both sanity checks pass does enrichment run, and
enrichment itself never appends errors, only warnings. -/
theorem C2_short_circuit_amended (db : List CountyInfo) (d : DeedData) :
    (∀ e, validateDateLogic d = Except.error e →
      validate db d = { d with errors := d.errors ++ [e.msg] }) ∧
    (∀ e, validateDateLogic d = Except.ok () → validateAmountRecon d = Except.error e →
      validate db d = { d with errors := d.errors ++ [e.msg] }) ∧
    (∀ d1, validateDateLogic d = Except.ok () → validateAmountRecon d = Except.ok d1 →
      validate db d = enrichCounty db d1) ∧
    (∀ (db2 : List CountyInfo) (d2 : DeedData), (enrichCounty db2 d2).errors = d2.errors) := by
  refine ⟨?_, ?_, ?_, ?_⟩
  · intro e he; simp only [validate, he]
  · intro e h1 h2; simp only [validate, h1, h2]
  · intro d1 h1 h2; simp only [validate, h1, h2]
  · intro db2 d2
    rcases hc : d2.county_raw with _ | raw
    · simp only [enrichCounty, hc]
    · simp only [enrichCounty, hc]
      split
      · rfl
      · rcases hm : matchCounty db2 raw with e | p
        · rfl
        · rcases p with ⟨nm, conf⟩
          dsimp only
          rcases ht : getTaxRate db2 nm with e2 | rate
          · rfl
          · dsimp only
            split <;> rfl

/-- Claim C2 counterexample: on a Record whose dates fail the date-order check
and whose raw county text matches the reference table exactly, validation
appends the date error but never runs jurisdiction enrichment: the county is
left unnormalized and no warning is appended, although running enrichment on
the same Record would have normalized the county. -/
theorem C2_counterexample :
    (validate [CountyInfo.mk "Santa Clara" (6/1000)]
        { emptyDeed with
          date_signed := some ⟨2020, 1, 5⟩,
          date_recorded := some ⟨2020, 1, 10⟩,
          county_raw := some "Santa Clara" }).county_normalized = none ∧
    (validate [CountyInfo.mk "Santa Clara" (6/1000)]
        { emptyDeed with
          date_signed := some ⟨2020, 1, 5⟩,
          date_recorded := some ⟨2020, 1, 10⟩,
          county_raw := some "Santa Clara" }).warnings = [] ∧
    (validate [CountyInfo.mk "Santa Clara" (6/1000)]
        { emptyDeed with
          date_signed := some ⟨2020, 1, 5⟩,
          date_recorded := some ⟨2020, 1, 10⟩,
          county_raw := some "Santa Clara" }).errors.length = 1 ∧
    (enrichCounty [CountyInfo.mk "Santa Clara" (6/1000)]
        { emptyDeed with
          date_signed := some ⟨2020, 1, 5⟩,
          date_recorded := some ⟨2020, 1, 10⟩,
          county_raw := some "Santa Clara" }).county_normalized = some "Santa Clara" := by
  refine ⟨by decide, by decide, by decide, by decide⟩

theorem C2_short_circuit_amended_witness :
    validate [] { emptyDeed with
        date_signed := some ⟨2020, 1, 5⟩,
        date_recorded := some ⟨2020, 1, 10⟩ } =
      { emptyDeed with
        date_signed := some ⟨2020, 1, 5⟩,
        date_recorded := some ⟨2020, 1, 10⟩,
        errors := [(VErr.dateLogic ⟨2020, 1, 10⟩ ⟨2020, 1, 5⟩).msg] } :=
  (C2_short_circuit_amended [] _).1 (VErr.dateLogic ⟨2020, 1, 10⟩ ⟨2020, 1, 5⟩) rfl

/-- Claim C3 (corrected): for every Record whose numeric amount N is present
and nonzero and whose written amount parses to a number W, amount
reconciliation raises an AmountMismatchError iff the absolute difference
exceeds 0.01, and the error carries the numeric value, the written text and a
delta equal to the computed difference; with a difference of at most 0.01 no
error occurs.  (The nonzero hypothesis is forced: a present numeric amount of
exactly 0 is falsy in the source and skips the check entirely.) -/
theorem C3_amount_reconciliation_amended (d : DeedData) (n w : ℚ) (s : String)
    (hn : d.amount_numeric = some n) (hn0 : n ≠ 0)
    (hs : d.amount_written = some s) (hw : parseWrittenAmount s = some w) :
    ((∃ e, validateAmountRecon d = Except.error e) ↔ |n - w| > 1/100) ∧
    (|n - w| > 1/100 →
      validateAmountRecon d = Except.error (VErr.amountMismatch n s |n - w|)) ∧
    (|n - w| ≤ 1/100 → validateAmountRecon d = Except.ok d) := by
  have hs0 : s ≠ "" := by
    intro h
    rw [h] at hw
    rw [show parseWrittenAmount "" = none from rfl] at hw
    cases hw
  have key : validateAmountRecon d =
      (if |n - w| > 1/100 then Except.error (VErr.amountMismatch n s |n - w|)
       else Except.ok d) := by
    simp only [validateAmountRecon, hn, hs, hn0, hs0, hw, decide_eq_true_eq,
      decide_eq_false_iff_not, Bool.or_self, if_false]
  refine ⟨?_, ?_, ?_⟩
  · constructor
    · rintro ⟨e, he⟩
      rw [key] at he
      split at he
      next h => exact h
      next h => cases he
    · intro hgt
      exact ⟨VErr.amountMismatch n s |n - w|, by rw [key, if_pos hgt]⟩
  · intro hgt; rw [key, if_pos hgt]
  · intro hle; rw [key, if_neg (not_lt.mpr hle)]

/-- Claim C3 counterexample: with the numeric amount present but equal to 0
and a written amount parsing to 2000000, the difference far exceeds 0.01 yet
reconciliation is skipped and raises nothing, because 0.0 is falsy in the
source guard. -/
theorem C3_counterexample :
    parseWrittenAmount "2 Million" = some 2000000 ∧
    (1 : ℚ)/100 < |(0 : ℚ) - 2000000| ∧
    validateAmountRecon { emptyDeed with
        amount_numeric := some 0,
        amount_written := some "2 Million" } =
      Except.ok { emptyDeed with
        amount_numeric := some 0,
        amount_written := some "2 Million" } := by
  refine ⟨by decide, by decide, by rfl⟩

theorem C3_amount_reconciliation_amended_witness :
    validateAmountRecon { emptyDeed with
        amount_numeric := some 5,
        amount_written := some "2 Million" } =
      Except.error (VErr.amountMismatch 5 "2 Million" |(5 : ℚ) - 2000000|) :=
  (C3_amount_reconciliation_amended _ 5 2000000 "2 Million" rfl (by norm_num) rfl
    (by decide)).2.1 (by decide)

/-- Claim C10: a present numeric amount equal to exactly 0, or a present but
empty written amount, makes reconciliation skip exactly as if the field were
absent: no error and no warning, whatever the other amount holds. -/
theorem C10_falsy_amounts_skip (d : DeedData) :
    (d.amount_numeric = some 0 → validateAmountRecon d = Except.ok d) ∧
    (d.amount_written = some "" → validateAmountRecon d = Except.ok d) ∧
    (d.amount_numeric = none → validateAmountRecon d = Except.ok d) ∧
    (d.amount_written = none → validateAmountRecon d = Except.ok d) := by
  refine ⟨?_, ?_, ?_, ?_⟩
  · intro h
    rcases hw : d.amount_written with _ | w <;>
      simp [validateAmountRecon, h, hw]
  · intro h
    rcases hn : d.amount_numeric with _ | n <;>
      simp [validateAmountRecon, h, hn]
  · intro h
    rcases hw : d.amount_written with _ | w <;>
      simp [validateAmountRecon, h, hw]
  · intro h
    rcases hn : d.amount_numeric with _ | n <;>
      simp [validateAmountRecon, h, hn]

/-- Claim C4 counterexample: on the exact scenario input, with the amount
written as the word form Two Million inside parentheses, the written parser
finds no digit token, so validation raises no AmountMismatchError at all (the
error list stays empty), contradicting the claimed mismatch with delta
1,000,000.00. -/
theorem C4_counterexample :
    (processDeed [] "Amount: $1,000,000.00 (Two Million)").amount_numeric = some 1000000 ∧
    (processDeed [] "Amount: $1,000,000.00 (Two Million)").amount_written =
      some "Two Million" ∧
    parseWrittenAmount "Two Million" = none ∧
    (processDeed [] "Amount: $1,000,000.00 (Two Million)").errors = [] := by
  refine ⟨by decide, by decide, by decide, by decide⟩

/-- Claim C4 (corrected): for the Record extracted from a text containing
Amount: $1,000,000.00 and the parenthesised written amount Two Million,
validation does not raise an AmountMismatchError; the written-amount parser
accepts only digit-form numbers before Million or Thousand, so it appends the
could-not-parse warning and the report is APPROVED. -/
theorem C4_scenario_behavior :
    (processAndReport [] "Amount: $1,000,000.00 (Two Million)").status = "APPROVED" ∧
    (processAndReport [] "Amount: $1,000,000.00 (Two Million)").warnings =
      ["Could not parse: Two Million"] ∧
    (processAndReport [] "Amount: $1,000,000.00 (Two Million)").errors = [] := by
  refine ⟨by decide, by decide, by decide⟩

/-- Claim C5 (code bug): matching the raw text S. Clara against a table with
the single entry Santa Clara does not take the abbreviation branch, because
the stripped raw input SCLARA is compared against the initials SC; the fuzzy
branch fires instead with confidence 14/19, which is below 0.9, so enrichment
appends the low-confidence warning.  The claim follows the comment at the
abbreviation branch of the source, which names exactly this input as its
example. -/
theorem C5_abbreviation_mismatch :
    matchCounty [CountyInfo.mk "Santa Clara" (6/1000)] "S. Clara" =
      Except.ok ("Santa Clara", 14/19) ∧
    rawStripped (normRaw "S. Clara") = "SCLARA".toList ∧
    abbrevOf "Santa Clara" = "SC".toList ∧
    (14 : ℚ)/19 < 9/10 ∧
    (enrichCounty [CountyInfo.mk "Santa Clara" (6/1000)]
        { emptyDeed with county_raw := some "S. Clara" }).warnings =
      ["Low confidence county match: 74%"] := by
  refine ⟨by decide, by decide, by decide, by decide, by decide⟩

/-- Claim C6 (corrected): exact match takes precedence over the abbreviation
and fuzzy rules only entry by entry: if the normalised raw input equals the
uppercased canonical name of some entry and no earlier entry fires the exact
or abbreviation rule, match returns that entry with confidence exactly 1.0.
(An abbreviation match on an earlier entry preempts an exact match on a later
one, which is what forces the no-earlier-fire hypothesis.) -/
theorem C6_exact_first_amended (pre post : List CountyInfo) (e : CountyInfo) (raw : String)
    (hne : raw ≠ "") (heq : normRaw raw = upperChars e.name)
    (hpre : ∀ e2 ∈ pre, fires (normRaw raw) e2 = false) :
    matchCounty (pre ++ e :: post) raw = Except.ok (e.name, 1) := by
  have hb : (raw == "") = false := beq_eq_false_iff_ne.mpr hne
  simp only [matchCounty, hb, Bool.false_eq_true, if_false]
  exact matchCountyGo_exact (normRaw raw) e post pre (none, 0) heq hpre

/-- Claim C6 counterexample: with the table Santa Clara, SC and the raw input
SC, the raw input is case-insensitively equal to the canonical name of the
second entry, yet the abbreviation rule of the first entry fires first and
match returns Santa Clara with confidence 0.95 instead of SC with 1.0. -/
theorem C6_counterexample :
    matchCounty [CountyInfo.mk "Santa Clara" (1/100), CountyInfo.mk "SC" (2/100)] "SC" =
      Except.ok ("Santa Clara", 19/20) ∧
    normRaw "SC" = upperChars "SC" ∧
    matchCounty [CountyInfo.mk "Santa Clara" (1/100), CountyInfo.mk "SC" (2/100)] "SC" ≠
      Except.ok ("SC", 1) := by
  refine ⟨by decide, by decide, by decide⟩

theorem C6_exact_first_amended_witness :
    matchCounty [CountyInfo.mk "Alameda" (1/100), CountyInfo.mk "Santa Clara" (2/100)]
      "Santa Clara" = Except.ok ("Santa Clara", 1) :=
  C6_exact_first_amended [CountyInfo.mk "Alameda" (1/100)] []
    (CountyInfo.mk "Santa Clara" (2/100)) "Santa Clara" (by decide) (by decide) (by decide)

/-- Claim C7: match fails with a JurisdictionLookupError in exactly two
situations: an empty raw input, which fails immediately and independently of
the reference table, or no exact or abbreviation rule firing on any entry
while every fuzzy ratio is strictly below 0.6; otherwise, when no rule fires
but some ratio reaches 0.6, it returns the best-ratio entry with its ratio as
confidence. -/
theorem C7_lookup_failure_characterization (db : List CountyInfo) (raw : String) :
    (∀ db2 : List CountyInfo,
      matchCounty db2 "" = Except.error (VErr.countyLookup "County name is empty")) ∧
    ((∃ er, matchCounty db raw = Except.error er) ↔
      (raw = "" ∨ ((∀ e ∈ db, fires (normRaw raw) e = false) ∧
        (∀ e ∈ db, seqRatio (normRaw raw) (upperChars e.name) < 3/5)))) ∧
    (raw ≠ "" → (∀ e ∈ db, fires (normRaw raw) e = false) →
      (∃ e0 ∈ db, 3/5 ≤ seqRatio (normRaw raw) (upperChars e0.name)) →
      ∃ e ∈ db,
        matchCounty db raw = Except.ok (e.name, seqRatio (normRaw raw) (upperChars e.name)) ∧
        ∀ e2 ∈ db, seqRatio (normRaw raw) (upperChars e2.name) ≤
          seqRatio (normRaw raw) (upperChars e.name)) := by
  refine ⟨fun db2 => rfl, ?_, ?_⟩
  · by_cases hr : raw = ""
    · subst hr
      constructor
      · intro _; exact Or.inl rfl
      · intro _; exact ⟨VErr.countyLookup "County name is empty", rfl⟩
    · have hne : (raw == "") = false := beq_eq_false_iff_ne.mpr hr
      have hm : matchCounty db raw = matchCountyGo (normRaw raw) db (none, 0) := by
        simp only [matchCounty, hne, Bool.false_eq_true, if_false]
      by_cases hf : ∀ e ∈ db, fires (normRaw raw) e = false
      · rw [hm, matchCountyGo_noFire (normRaw raw) db (none, 0) hf]
        constructor
        · rintro ⟨er, her⟩
          split at her
          next hlt =>
            refine Or.inr ⟨hf, fun e he => ?_⟩
            exact lt_of_le_of_lt (bestFold_ge_mem (normRaw raw) db (none, 0) e he) hlt
          next hlt => exact Except.noConfusion her
        · rintro (h | ⟨_, hall⟩)
          · exact absurd h hr
          · have hlt : (bestFold (normRaw raw) db (none, 0)).2 < 3/5 := by
              rcases bestFold_cases (normRaw raw) db (none, 0) with h1 | ⟨e, he, h2⟩
              · rw [h1]; norm_num
              · rw [h2]; exact hall e he
            rw [if_pos hlt]
            exact ⟨_, rfl⟩
      · constructor
        · rintro ⟨er, her⟩
          push_neg at hf
          obtain ⟨e, he, hfe⟩ := hf
          have hfe2 : fires (normRaw raw) e = true := by
            cases hq : fires (normRaw raw) e
            · exact absurd hq hfe
            · rfl
          obtain ⟨nm, c, hok⟩ := matchCountyGo_fires (normRaw raw) db (none, 0) ⟨e, he, hfe2⟩
          rw [hm, hok] at her
          exact Except.noConfusion her
        · rintro (h | ⟨hall, _⟩)
          · exact absurd h hr
          · exact absurd hall hf
  · rintro hr hf ⟨e0, he0, hge⟩
    have hne : (raw == "") = false := beq_eq_false_iff_ne.mpr hr
    have hm : matchCounty db raw = matchCountyGo (normRaw raw) db (none, 0) := by
      simp only [matchCounty, hne, Bool.false_eq_true, if_false]
    rw [hm, matchCountyGo_noFire (normRaw raw) db (none, 0) hf]
    have hnlt : ¬ (bestFold (normRaw raw) db (none, 0)).2 < 3/5 :=
      not_lt.mpr (le_trans hge (bestFold_ge_mem (normRaw raw) db (none, 0) e0 he0))
    rw [if_neg hnlt]
    rcases bestFold_cases (normRaw raw) db (none, 0) with h1 | ⟨e, he, h2⟩
    · exfalso
      apply hnlt
      rw [h1]
      norm_num
    · refine ⟨e, he, ?_, fun e2 he2 => ?_⟩
      · rw [h2]
        rfl
      · have h3 := bestFold_ge_mem (normRaw raw) db (none, 0) e2 he2
        rw [h2] at h3
        exact h3

theorem C7_lookup_failure_characterization_witness :
    (∃ er, matchCounty [CountyInfo.mk "Santa Clara" (6/1000)] "Zzyzx County" =
      Except.error er) ∧
    matchCounty [] "" = Except.error (VErr.countyLookup "County name is empty") :=
  ⟨(C7_lookup_failure_characterization [CountyInfo.mk "Santa Clara" (6/1000)]
      "Zzyzx County").2.1.mpr (Or.inr ⟨by decide, by decide⟩),
   (C7_lookup_failure_characterization [] "x").1 []⟩

/-- Claim C8 (corrected): a present date field serializes as the ISO-8601
date-time string of midnight, YYYY-MM-DDT00:00:00 (datetime.isoformat), not
as a bare calendar date; every unset optional field serializes as the null
marker, which is never the empty string. -/
theorem C8_serialization_amended (d : DeedData) :
    (∀ dt, d.date_signed = some dt →
      (toDict d).lookup "date_signed" = some (JVal.jstr (isoDate dt ++ "T00:00:00"))) ∧
    (∀ dt, d.date_recorded = some dt →
      (toDict d).lookup "date_recorded" = some (JVal.jstr (isoDate dt ++ "T00:00:00"))) ∧
    (d.date_signed = none → (toDict d).lookup "date_signed" = some JVal.jnull) ∧
    (d.date_recorded = none → (toDict d).lookup "date_recorded" = some JVal.jnull) ∧
    (d.doc_id = none → (toDict d).lookup "doc_id" = some JVal.jnull) ∧
    (d.county_raw = none → (toDict d).lookup "county_raw" = some JVal.jnull) ∧
    (d.county_normalized = none → (toDict d).lookup "county_normalized" = some JVal.jnull) ∧
    (d.state = none → (toDict d).lookup "state" = some JVal.jnull) ∧
    (d.grantor = none → (toDict d).lookup "grantor" = some JVal.jnull) ∧
    (d.grantee = none → (toDict d).lookup "grantee" = some JVal.jnull) ∧
    (d.amount_numeric = none → (toDict d).lookup "amount_numeric" = some JVal.jnull) ∧
    (d.amount_written = none → (toDict d).lookup "amount_written" = some JVal.jnull) ∧
    (d.apn = none → (toDict d).lookup "apn" = some JVal.jnull) ∧
    (d.status = none → (toDict d).lookup "status" = some JVal.jnull) ∧
    (d.tax_rate = none → (toDict d).lookup "tax_rate" = some JVal.jnull) ∧
    (∀ s : String, JVal.jnull ≠ JVal.jstr s) := by
  obtain ⟨f1, f2, f3, f4, f5, f6, f7, f8, f9, f10, f11, f12, f13, f14, f15⟩ := d
  refine ⟨?_, ?_, ?_, ?_, ?_, ?_, ?_, ?_, ?_, ?_, ?_, ?_, ?_, ?_, ?_, ?_⟩ <;>
    first
      | (intro dt h; subst h; rfl)
      | (intro h; subst h; rfl)
      | (intro s2 h; exact JVal.noConfusion h)

/-- Claim C8 counterexample: a Record with the signed date 2020-01-05 present
serializes that field as the string 2020-01-05T00:00:00, which carries a time
component and is not the bare ISO-8601 calendar date 2020-01-05. -/
theorem C8_counterexample :
    (toDict { emptyDeed with date_signed := some ⟨2020, 1, 5⟩ }).lookup "date_signed" =
      some (JVal.jstr "2020-01-05T00:00:00") ∧
    "2020-01-05T00:00:00" ≠ "2020-01-05" := by
  refine ⟨by decide, by decide⟩

theorem C8_serialization_amended_witness :
    (toDict emptyDeed).lookup "doc_id" = some JVal.jnull ∧
    (toDict { emptyDeed with date_recorded := some ⟨2021, 2, 3⟩ }).lookup "date_recorded" =
      some (JVal.jstr (isoDate ⟨2021, 2, 3⟩ ++ "T00:00:00")) :=
  ⟨(C8_serialization_amended emptyDeed).2.2.2.2.1 rfl,
   (C8_serialization_amended _).2.1 ⟨2021, 2, 3⟩ rfl⟩

/-- Claim C9: extraction is total and per-field independent: for every raw
text the produced Record carries no errors and no warnings, each field equals
the result of its own extractor applied to the text alone, a date anchor
followed by an invalid calendar date (month 13) yields an unset date field,
and malformed numeric text after the Amount anchor yields an unset numeric
field; any date the parser does produce is a valid calendar date. -/
theorem C9_extraction_total :
    (∀ text : String,
      (parse text).errors = [] ∧ (parse text).warnings = [] ∧
      (parse text).doc_id = extractField text docPat ∧
      (parse text).county_raw = extractField text countyPat ∧
      (parse text).state = extractField text statePat ∧
      (parse text).date_signed = parseDate text "Date Signed" ∧
      (parse text).date_recorded = parseDate text "Date Recorded" ∧
      (parse text).grantor = extractField text grantorPat ∧
      (parse text).grantee = extractField text granteePat ∧
      (parse text).apn = extractField text apnPat ∧
      (parse text).status = extractField text statusPat ∧
      (parse text).amount_numeric = extractAmountNumeric text ∧
      (parse text).amount_written = extractAmountWritten text) ∧
    (∀ (text label : String) (dt : PyDateTime), parseDate text label = some dt →
      validDate dt.year dt.month dt.day = true) ∧
    (parse "Date Signed: 2020-13-01").date_signed = none ∧
    (parse "Amount: $1.2.3").amount_numeric = none := by
  refine ⟨?_, ?_, by decide, by decide⟩
  · intro text
    exact ⟨rfl, rfl, rfl, rfl, rfl, rfl, rfl, rfl, rfl, rfl, rfl, rfl, rfl⟩
  · intro text label dt h
    unfold parseDate at h
    split at h
    next y m dd rest heq =>
      split at h
      next hv =>
        injection h with h2
        subst h2
        exact hv
      next hv => cases h
    next => cases h

theorem C9_extraction_total_witness :
    validDate 2020 1 5 = true ∧ (parse "Date Signed: 2020-01-05").errors = [] :=
  ⟨C9_extraction_total.2.1 "Date Signed: 2020-01-05" "Date Signed" ⟨2020, 1, 5⟩ (by decide),
   (C9_extraction_total.1 "Date Signed: 2020-01-05").1⟩

theorem C10_falsy_amounts_skip_witness :
    validateAmountRecon { emptyDeed with
        amount_numeric := some 0,
        amount_written := some "9 Million" } =
      Except.ok { emptyDeed with
        amount_numeric := some 0,
        amount_written := some "9 Million" } :=
  (C10_falsy_amounts_skip _).1 rfl

end BadDeed
